import Mathlib

/-!
Verification of the AKL/AEL scraping engine (`lib/ael/scrapers.py`).

This file gives a shallow embedding of the data model and the operations of the
scraping engine: the `ScrapeStrategy` decision tables (metadata and asset action
resolution), the candidate-resolution routine of the ROM scanner, the abstract
`Scraper` object with its per-kind disk caches, dirty tracking and flush, the
error counter with its self-disable circuit breaker, the API-request throttle
and the `FilterROM` BIOS filter.  Python dictionaries are modelled as
association lists over `String` keys; the JSON-serialisable cached values are
modelled as flat key/value dictionaries; Python `None` is modelled as
`Option.none`.  External collaborators (Kodi dialogs, the filesystem, the
network transport of concrete providers) enter as explicit parameters.
-/

set_option autoImplicit false

namespace AKL

/-! ## Basic dictionary model

A Python `dict` keyed by strings is modelled as an association list.  Insertion
overwrites an existing binding in place and otherwise appends, matching the
behaviour of `d[k] = v`; deletion removes the binding, matching `del d[k]`. -/

/-- A flat JSON-like dictionary: the shape of cached candidate/metadata values. -/
abbrev CacheVal := List (String × String)

/-- A candidate game produced by `Scraper.get_candidates`: a flat dictionary.
The empty dictionary is the "searched, found nothing" marker. -/
abbrev Candidate := CacheVal

/-- Python `d[k]` / `k in d`: look up the binding for `k`. -/
def alistLookup : List (String × CacheVal) → String → Option CacheVal
  | [], _ => none
  | p :: t, k => if p.1 = k then some p.2 else alistLookup t k

/-- Python `d[k] = v`: overwrite the binding for `k` if present, else append. -/
def alistInsert (l : List (String × CacheVal)) (k : String) (v : CacheVal) :
    List (String × CacheVal) :=
  if l.any (fun p => p.1 = k) then
    l.map (fun p => if p.1 = k then (k, v) else p)
  else
    l ++ [(k, v)]

/-- Python `del d[k]`: remove the binding for `k`. -/
def alistErase (l : List (String × CacheVal)) (k : String) :
    List (String × CacheVal) :=
  l.filter (fun p => !(p.1 = k : Bool))

theorem alistLookup_insert (l : List (String × CacheVal)) (k : String) (v : CacheVal) :
    alistLookup (alistInsert l k v) k = some v := by
  rw [alistInsert]
  by_cases hany : l.any (fun p => (p.1 = k : Bool))
  · simp only [hany, if_true]
    induction l with
    | nil => simp at hany
    | cons p t ih =>
      simp only [List.any_cons, Bool.or_eq_true, decide_eq_true_eq] at hany
      by_cases hp : p.1 = k
      · simp [alistLookup, hp]
      · rcases hany with h | h
        · exact absurd h hp
        · simpa [alistLookup, hp] using ih (by simpa using h)
  · simp only [hany, if_false]
    induction l with
    | nil => simp [alistLookup]
    | cons p t ih =>
      simp only [List.any_cons, Bool.or_eq_true, decide_eq_true_eq, not_or] at hany
      simpa [alistLookup, hany.1] using ih (by simpa using hany.2)

theorem alistLookup_erase (l : List (String × CacheVal)) (k : String) :
    alistLookup (alistErase l k) k = none := by
  induction l with
  | nil => rfl
  | cons p t ih =>
    by_cases hp : p.1 = k
    · simpa [alistErase, List.filter, hp] using ih
    · simpa [alistErase, List.filter, hp, alistLookup] using ih

/-! ## ScrapeStrategy action constants (class variables of `ScrapeStrategy`) -/

def ACTION_META_NONE : Nat := 0
def ACTION_META_TITLE_ONLY : Nat := 100
def ACTION_META_NFO_FILE : Nat := 200
def ACTION_META_SCRAPER : Nat := 300

def ACTION_ASSET_NONE : Nat := 0
def ACTION_ASSET_LOCAL_ASSET : Nat := 100
def ACTION_ASSET_SCRAPER : Nat := 200

/-! ## Policies (values of the external `constants` module)

The `constants.SCRAPE_POLICY_*` identifiers are opaque distinct constants of an
external module; they are modelled as inductive types.  The `else: raise
ValueError` branches of the source for an unknown policy value correspond to
the exhaustiveness of the match. -/

/-- The four metadata scraping policies. -/
inductive MetadataPolicy
  | titleOnly
  | nfoPreferred
  | nfoAndScrape
  | scrapeOnly
deriving DecidableEq

/-- The three asset scraping policies. -/
inductive AssetPolicy
  | localOnly
  | localAndScrape
  | scrapeOnly
deriving DecidableEq

/-! ## C1: `ScrapeStrategy._scanner_process_ROM_metadata_begin`

Embeds lines 462-510.  The function stores `self.metadata_action`; its inputs
are whether `self.meta_scraper_obj` is `None`, the configured metadata policy
and whether the NFO sidecar file of the ROM exists. -/

def scanner_process_ROM_metadata_begin (metaScraperConfigured : Bool)
    (policy : MetadataPolicy) (nfoFileFound : Bool) : Nat :=
  if !metaScraperConfigured then ACTION_META_NONE
  else
    match policy with
    | .titleOnly => ACTION_META_TITLE_ONLY
    | .nfoPreferred =>
        if nfoFileFound then ACTION_META_NFO_FILE else ACTION_META_TITLE_ONLY
    | .nfoAndScrape =>
        if nfoFileFound then ACTION_META_NFO_FILE else ACTION_META_SCRAPER
    | .scrapeOnly => ACTION_META_SCRAPER

/-! ## C2: `ScrapeStrategy._scanner_process_ROM_assets_begin`

Embeds lines 513-575.  Per enabled asset the action depends on the asset
policy, on whether `self.local_asset_list[AInfo.id]` is truthy (a local asset
file was found) and on `self.asset_scraper_obj.supports_asset_ID(AInfo.id)`.
The final `else: raise ValueError("Logical error")` of the scrape-only chain is
modelled as `none`. -/

/-- Per-asset action of the scrape-only/local chains (lines 538-575). -/
def asset_action_resolve (policy : AssetPolicy) (localFound supports : Bool) :
    Option Nat :=
  match policy with
  | .localOnly => some ACTION_ASSET_LOCAL_ASSET
  | .localAndScrape =>
      if localFound then some ACTION_ASSET_LOCAL_ASSET
      else if supports then some ACTION_ASSET_SCRAPER
      else some ACTION_ASSET_LOCAL_ASSET
  | .scrapeOnly =>
      if !supports && localFound then some ACTION_ASSET_LOCAL_ASSET
      else if !supports && !localFound then some ACTION_ASSET_LOCAL_ASSET
      else if supports then some ACTION_ASSET_SCRAPER
      else none

/-- One enabled asset type as seen by the planner: its identifier, whether a
local asset file exists for it and whether the asset scraper supports it. -/
structure EnabledAsset where
  id : Nat
  localFound : Bool
  supports : Bool
deriving DecidableEq

/-- The asset-action dictionary built by `_scanner_process_ROM_assets_begin`:
with no asset scraper configured every enabled asset maps to
`ACTION_ASSET_NONE`; otherwise each maps to its resolved action. -/
def scanner_process_ROM_assets_begin (assetScraperConfigured : Bool)
    (policy : AssetPolicy) (enabledAssets : List EnabledAsset) :
    List (Nat × Option Nat) :=
  if !assetScraperConfigured then
    enabledAssets.map (fun a => (a.id, some ACTION_ASSET_NONE))
  else
    enabledAssets.map (fun a => (a.id, asset_action_resolve policy a.localFound a.supports))

/-! ## C10: `FilterROM.ROM_is_filtered`

Embeds lines 194-218.  The MAME BIOS/Devices/Mechanical databases are the sets
loaded in `FilterROM.__init__`; the No-Intro heuristic is the regular
expression search for the literal substring `[BIOS]`. -/

/-- State of a `FilterROM` object: the `scan_ignore_bios` setting, the platform
it was constructed for, the long MAME platform name constant, and the three
MAME databases. -/
structure FilterROM where
  scanIgnoreBios : Bool
  platform : String
  mameLong : String
  biosSet : List String
  devicesSet : List String
  mechanicalSet : List String

/-- Returns `true` if the ROM is filtered out, `false` otherwise. -/
def FilterROM.ROM_is_filtered (f : FilterROM) (basename : String) : Bool :=
  if !f.scanIgnoreBios then false
  else if f.platform = f.mameLong then
    if basename ∈ f.biosSet then true
    else if basename ∈ f.devicesSet then true
    else if basename ∈ f.mechanicalSet then true
    else false
  else
    if "[BIOS]".toList <:+: basename.toList then true else false

/-! ## The abstract `Scraper` object

`Scraper` owns four disk caches (one per kind), their loaded and dirty flags,
the active candidate, the error counter and the disabled flag.  The on-disk
cache files are an external resource, modelled by `DiskEnv`: for each cache
kind, `none` means the file does not exist and `some m` is its parsed content. -/

/-- Threshold of the error circuit breaker (`Scraper.EXCEPTION_COUNTER_THRESHOLD`). -/
def EXCEPTION_COUNTER_THRESHOLD : Nat := 5

/-- The four disk cache kinds (`Scraper.CACHE_CANDIDATES` etc.). -/
inductive CacheType
  | candidates
  | metadata
  | assets
  | internal
deriving DecidableEq

/-- `Scraper.CACHE_LIST`, in source order. -/
def CACHE_LIST : List CacheType :=
  [.candidates, .metadata, .assets, .internal]

/-- The string each cache kind contributes to cache file names. -/
def cacheTypeName : CacheType → String
  | .candidates => "candidates"
  | .metadata => "metadata"
  | .assets => "assets"
  | .internal => "internal"

/-- The external value of `kodi.KODI_MESSAGE_DIALOG` (an opaque constant of the
Kodi collaborator layer, used as the dialog kind of every scraper error). -/
def KODI_MESSAGE_DIALOG : Nat := 1

/-- The mutable status dictionary `kodi.new_status_dic()` convention:
`status`, `msg` and `dialog` fields. -/
structure StatusDic where
  status : Bool
  msg : String
  dialog : Nat
deriving DecidableEq

/-- Mutable state of a `Scraper` instance. -/
structure ScraperState where
  diskCaches : CacheType → List (String × CacheVal)
  diskCachesLoaded : CacheType → Bool
  diskCachesDirty : CacheType → Bool
  candidate : Option Candidate
  cacheKey : String
  platform : String
  exceptionCounter : Nat
  scraperDisabled : Bool

/-- The on-disk cache files: for each kind, `none` when the file does not
exist, `some m` when it exists with content `m`. -/
structure DiskEnv where
  files : CacheType → Option (List (String × CacheVal))

/-- `Scraper.__init__`: empty unloaded clean caches, zero error counter,
scraper enabled, no candidate. -/
def initScraper : ScraperState :=
  { diskCaches := fun _ => []
    diskCachesLoaded := fun _ => false
    diskCachesDirty := fun _ => false
    candidate := none
    cacheKey := ""
    platform := ""
    exceptionCounter := 0
    scraperDisabled := false }

/-- `Scraper._load_disk_cache`: read the file if it exists (else reset to the
empty dictionary), mark the kind loaded and clean. -/
def load_disk_cache (env : DiskEnv) (s : ScraperState) (ct : CacheType) :
    ScraperState :=
  { s with
    diskCaches := fun t => if t = ct then (env.files ct).getD [] else s.diskCaches t
    diskCachesLoaded := fun t => if t = ct then true else s.diskCachesLoaded t
    diskCachesDirty := fun t => if t = ct then false else s.diskCachesDirty t }

/-- `Scraper._lazy_load_disk_cache`. -/
def lazy_load_disk_cache (env : DiskEnv) (s : ScraperState) (ct : CacheType) :
    ScraperState :=
  if s.diskCachesLoaded ct then s else load_disk_cache env s ct

/-- `Scraper._check_disk_cache`: lazy-load, then test key membership. -/
def check_disk_cache (env : DiskEnv) (s : ScraperState) (ct : CacheType)
    (cacheKey : String) : ScraperState × Bool :=
  let s := lazy_load_disk_cache env s ct
  (s, (alistLookup (s.diskCaches ct) cacheKey).isSome)

/-- `Scraper._retrieve_from_disk_cache` (the source indexes the dictionary
directly and is only called after a successful `_check_disk_cache`; a missing
key, a `KeyError` in Python, is modelled as `none`). -/
def retrieve_from_disk_cache (s : ScraperState) (ct : CacheType)
    (cacheKey : String) : Option CacheVal :=
  alistLookup (s.diskCaches ct) cacheKey

/-- `Scraper._delete_from_disk_cache`: remove the key and mark the kind dirty. -/
def delete_from_disk_cache (s : ScraperState) (ct : CacheType)
    (cacheKey : String) : ScraperState :=
  { s with
    diskCaches := fun t => if t = ct then alistErase (s.diskCaches ct) cacheKey else s.diskCaches t
    diskCachesDirty := fun t => if t = ct then true else s.diskCachesDirty t }

/-- `Scraper._update_disk_cache`: lazy-load, store the value, mark dirty. -/
def update_disk_cache (env : DiskEnv) (s : ScraperState) (ct : CacheType)
    (cacheKey : String) (data : CacheVal) : ScraperState :=
  let s := lazy_load_disk_cache env s ct
  { s with
    diskCaches := fun t => if t = ct then alistInsert (s.diskCaches ct) cacheKey data else s.diskCaches t
    diskCachesDirty := fun t => if t = ct then true else s.diskCachesDirty t }

/-- `Scraper.check_candidates_cache`: store the cache key and platform, then
test the candidates cache. -/
def check_candidates_cache (env : DiskEnv) (s : ScraperState)
    (romBase romPlatform : String) : ScraperState × Bool :=
  let s := { s with cacheKey := romBase, platform := romPlatform }
  check_disk_cache env s .candidates romBase

/-- `Scraper.set_candidate_from_cache`: install the cached value as the active
candidate. -/
def set_candidate_from_cache (s : ScraperState) (romBase romPlatform : String) :
    ScraperState :=
  { s with
    cacheKey := romBase
    platform := romPlatform
    candidate := retrieve_from_disk_cache s .candidates romBase }

/-- `Scraper.set_candidate`: install the candidate as the active one; a `None`
candidate is deliberately never written to the candidates cache, any other
value (including the empty dictionary) is. -/
def set_candidate (env : DiskEnv) (s : ScraperState) (romBase romPlatform : String)
    (candidate : Option Candidate) : ScraperState :=
  let s := { s with cacheKey := romBase, platform := romPlatform, candidate := candidate }
  match candidate with
  | none => s
  | some c => update_disk_cache env s .candidates romBase c

/-- One iteration of the `clear_cache` loop: delete the key from one cache kind
when present (`_check_disk_cache` then `_delete_from_disk_cache`). -/
def clear_one (env : DiskEnv) (s : ScraperState) (ct : CacheType)
    (cacheKey : String) : ScraperState :=
  let ch := check_disk_cache env s ct cacheKey
  if ch.2 then delete_from_disk_cache ch.1 ct cacheKey else ch.1

/-- `Scraper.clear_cache`: purge the key from every cache kind, in the order of
`Scraper.CACHE_LIST`. -/
def clear_cache (env : DiskEnv) (s : ScraperState) (romBase romPlatform : String) :
    ScraperState :=
  let s0 := { s with cacheKey := romBase, platform := romPlatform }
  let s1 := clear_one env s0 .candidates romBase
  let s2 := clear_one env s1 .metadata romBase
  let s3 := clear_one env s2 .assets romBase
  clear_one env s3 .internal romBase

/-- `Scraper._handle_error`: fill the status dictionary, bump the error
counter, and disable the scraper (overwriting the message) once the counter
exceeds the threshold. -/
def handle_error (s : ScraperState) (statusDic : StatusDic) (userMsg : String) :
    ScraperState × StatusDic :=
  let statusDic := { statusDic with status := false, dialog := KODI_MESSAGE_DIALOG, msg := userMsg }
  let s := { s with exceptionCounter := s.exceptionCounter + 1 }
  if s.exceptionCounter > EXCEPTION_COUNTER_THRESHOLD then
    ({ s with scraperDisabled := true },
     { statusDic with msg := "Maximum number of errors exceeded. Disabling scraper." })
  else
    (s, statusDic)

/-- Iterated `_handle_error` (one recorded error per call). -/
def handle_error_n : Nat → ScraperState × StatusDic → String → ScraperState × StatusDic
  | 0, p, _ => p
  | n + 1, p, userMsg => handle_error_n n (handle_error p.1 p.2 userMsg) userMsg

/-- Modelled from the spec: the concrete provider operations
(`get_candidates`, `get_metadata`, `get_assets`) are implemented by provider
subclasses that are not part of this file of the repository; per the spec (and
the scanner comment at lines 623-624: None is also returned if the scraper is
disabled), a disabled scraper returns `None` for all operations without
attempting network I/O.  `transportResult` is the outcome the underlying
transport would produce; the returned `Bool` records whether the transport was
invoked. -/
def scraper_operation (s : ScraperState)
    (transportResult : Option (List Candidate)) :
    Option (List Candidate) × Bool :=
  if s.scraperDisabled then (none, false) else (transportResult, true)

/-! ## `Scraper.flush_disk_cache` (C6)

Embeds lines 1133-1219 together with `_get_scraper_file_name` (lines
1382-1387).  `json.dumps(..., sort_keys = True)` serialises the dictionary with
its keys in sorted order; this is modelled by sorting the association list by
key.  `supports_disk_cache()` is an abstract capability of the concrete
scraper (false notably for AEL Offline) and enters as a parameter, as does
`get_filename()`. -/

/-- Deterministic serialisation of a cache dictionary: entries in sorted key
order (`json.dumps` with `sort_keys = True`). -/
def serializeCache (m : List (String × CacheVal)) : List (String × CacheVal) :=
  m.mergeSort (fun a b => a.1 ≤ b.1)

/-- `Scraper._get_scraper_file_name`: `<filename>__<platform>__<kind>.json`. -/
def scraper_file_name (scraperFilename romPlatform : String) (ct : CacheType) :
    String :=
  scraperFilename ++ "__" ++ romPlatform ++ "__" ++ cacheTypeName ct ++ ".json"

/-- The file written by one iteration of the `flush_disk_cache` loop:
`none` when the kind is skipped (unloaded, empty or clean), otherwise the file
name and its serialised content. -/
def flush_write (s : ScraperState) (scraperFilename : String) (ct : CacheType) :
    Option (String × List (String × CacheVal)) :=
  if !s.diskCachesLoaded ct then none
  else if s.diskCaches ct = [] then none
  else if !s.diskCachesDirty ct then none
  else some (scraper_file_name scraperFilename s.platform ct,
             serializeCache (s.diskCaches ct))

/-- `Scraper.flush_disk_cache`: nothing happens for a scraper without disk
cache support; otherwise every loaded, non-empty, dirty kind is written and
marked clean.  Returns the new state and the list of files written. -/
def flush_disk_cache (supportsDiskCache : Bool) (s : ScraperState)
    (scraperFilename : String) :
    ScraperState × List (String × List (String × CacheVal)) :=
  if !supportsDiskCache then (s, [])
  else
    ({ s with
       diskCachesDirty := fun ct =>
         if (flush_write s scraperFilename ct).isSome then false
         else s.diskCachesDirty ct },
     CACHE_LIST.filterMap (flush_write s scraperFilename))

/-! ## `ScrapeStrategy._scanner_get_candidate` (C5)

Embeds lines 579-665.  The abstract `get_candidates` call is modelled by the
`searchResult` parameter (`none` is an error, `[]` a legitimate empty search);
the returned `Bool` records whether `get_candidates` was invoked.  The game
selection dialog of the automatic-with-several-candidates branch is modelled by
`userChoice`, the index returned by `kodi.ListDialog().select` (negative when
the user cancels). -/

/-- Game/search selection modes (`constants.SCRAPE_AUTOMATIC` / `SCRAPE_MANUAL`). -/
inductive SelectionMode
  | automatic
  | manual
deriving DecidableEq

/-- Candidate index chosen at lines 642-661.  Note the source inversion: the
`SCRAPE_AUTOMATIC` branch opens the dialog when several candidates exist, the
`SCRAPE_MANUAL` branch always picks the first result. -/
def select_candidate_idx (mode : SelectionMode) (numCandidates : Nat)
    (userChoice : Int) : Nat :=
  match mode with
  | .automatic =>
      if numCandidates = 1 then 0
      else if userChoice < 0 then 0 else userChoice.toNat
  | .manual => 0

/-- `ScrapeStrategy._scanner_get_candidate`.  Returns the scraper state and
whether `get_candidates` was invoked.  The dialog index is assumed in range
(`candidates[idx]` would raise in Python otherwise); out-of-range indices
default to the empty dictionary. -/
def scanner_get_candidate (env : DiskEnv) (mode : SelectionMode)
    (userChoice : Int) (searchResult : Option (List Candidate))
    (s : ScraperState) (romBase romPlatform : String) :
    ScraperState × Bool :=
  let ch := check_candidates_cache env s romBase romPlatform
  if ch.2 then
    (set_candidate_from_cache ch.1 romBase romPlatform, false)
  else
    let s := clear_cache env ch.1 romBase romPlatform
    match searchResult with
    | none => (set_candidate env s romBase romPlatform none, true)
    | some [] => (set_candidate env s romBase romPlatform (some []), true)
    | some cs =>
        let idx := select_candidate_idx mode cs.length userChoice
        (set_candidate env s romBase romPlatform (some (cs.getD idx [])), true)

/-! ## `ScrapeStrategy._scanner_scrap_ROM_metadata` (C7)

Embeds lines 668-710 as the sequence of externally observable calls the
routine performs on the ROM, the NFO layer and the metadata scraper. -/

/-- Observable events of the metadata execution phase. -/
inductive MetaEvent
  /-- `ROM.set_name(text.format_ROM_title(...))`: title from the cleaned filename. -/
  | setNameCleanedFilename
  /-- Metadata fields applied from the scraped record (`_apply_candidate_on_metadata`). -/
  | applyScrapedMetadata
  /-- Call of `_scanner_update_NFO_file`. -/
  | updateNFO
  /-- Call of `self.meta_scraper_obj.get_metadata`. -/
  | getMetadata
deriving DecidableEq

/-- `ScrapeStrategy._scanner_scrap_ROM_metadata` as its event trace.
`candidate` is the scraper's active candidate; `fetchOk` is the status of the
`get_metadata` call and `gameData` its result (`[]` models a falsy record). -/
def scanner_scrap_ROM_metadata (candidate : Option Candidate) (fetchOk : Bool)
    (gameData : CacheVal) : List MetaEvent :=
  match candidate with
  | none => [.setNameCleanedFilename]
  | some c =>
      if c = [] then [.setNameCleanedFilename, .updateNFO]
      else
        [.getMetadata] ++
          (if !fetchOk then []
           else (if gameData = [] then [] else [.applyScrapedMetadata]) ++ [.updateNFO])

/-- `ScrapeStrategy._scanner_update_NFO_file` (lines 705-710): the NFO sidecar
is written exactly when the `scan_update_NFO_files` setting is on. -/
def scanner_update_NFO_file (scanUpdateNFOFiles : Bool) : Bool :=
  scanUpdateNFOFiles

/-! ## `ScrapeStrategy._scanner_process_ROM_assets` (C8)

Embeds lines 413-459 per enabled asset.  `_scanner_scrap_ROM_asset` is an
internal call whose outcome enters as `scrapeResult` (`none` when it returned
`None`, i.e. nothing scraped). -/

/-- External value of `constants.ASSET_TRAILER_ID`. -/
def ASSET_TRAILER_ID : Nat := 900

/-- What the asset loop knows about one enabled asset. -/
structure AssetCtx where
  id : Nat
  action : Nat
  hasAsset : Bool
  localPath : String
  scrapeResult : Option String
deriving DecidableEq

/-- Effect of the asset loop body on the ROM for one asset. -/
inductive AssetEffect
  /-- The asset is skipped: the ROM asset slot is left unchanged. -/
  | skip
  /-- `ROM.set_asset(AInfo, path)`. -/
  | setAsset (path : String)
  /-- `ROM.set_trailer(path)`. -/
  | setTrailer (path : String)
  /-- The `else: raise ValueError(...)` branch for an unknown action. -/
  | invalidAction
deriving DecidableEq

/-- One iteration of the `_scanner_process_ROM_assets` loop.  Returns the
effect on the ROM and whether `_scanner_scrap_ROM_asset` was invoked. -/
def process_ROM_asset_one (overwriteExisting : Bool) (a : AssetCtx) :
    AssetEffect × Bool :=
  if a.action = ACTION_ASSET_NONE then (.skip, false)
  else if !overwriteExisting && a.hasAsset then (.skip, false)
  else if a.action = ACTION_ASSET_LOCAL_ASSET then (.setAsset a.localPath, false)
  else if a.action = ACTION_ASSET_SCRAPER then
    match a.scrapeResult with
    | none => (.skip, true)
    | some path =>
        if a.id = ASSET_TRAILER_ID then (.setTrailer path, true)
        else (.setAsset path, true)
  else (.invalidAction, false)

/-- The whole asset loop: the early return when every action is
`ACTION_ASSET_NONE` performs no effects, exactly as running the loop would. -/
def scanner_process_ROM_assets (overwriteExisting : Bool)
    (enabledAssets : List AssetCtx) : List (Nat × AssetEffect × Bool) :=
  if enabledAssets.all (fun a => a.action = ACTION_ASSET_NONE) then
    enabledAssets.map (fun a => (a.id, .skip, false))
  else
    enabledAssets.map (fun a => (a.id, process_ROM_asset_one overwriteExisting a))

/-! ## `Scraper._wait_for_API_request` (C9)

Embeds lines 1486-1495.  `(now - self.last_http_call).total_seconds() * 1000`
is the elapsed time in milliseconds since the stored timestamp of the previous
call (a nonnegative rational); `time.sleep(wait_time_in_miliseconds / 1000)`
sleeps for the full configured interval.  The function returns the sleep
duration in milliseconds. -/

def wait_for_API_request (waitTimeInMs : Nat) (elapsedMs : ℚ) : ℚ :=
  if waitTimeInMs = 0 then 0
  else if elapsedMs < (waitTimeInMs : ℚ) then (waitTimeInMs : ℚ)
  else 0

/-- Modelled from the spec: the sleep duration the claim describes, namely
"just long enough to keep consecutive calls spaced at least the minimum
interval apart", i.e. exactly the shortfall between the configured interval
and the elapsed time (and no sleep once the interval has elapsed). -/
def claimed_throttle_sleep (waitTimeInMs : Nat) (elapsedMs : ℚ) : ℚ :=
  max ((waitTimeInMs : ℚ) - elapsedMs) 0

/-! ## Shared helper lemmas -/

theorem serializeCache_sorted (m : List (String × CacheVal)) :
    List.Sorted (fun a b : String × CacheVal => a.1 ≤ b.1) (serializeCache m) := by
  have htrans : ∀ a b c : String × CacheVal,
      (decide (a.1 ≤ b.1)) = true → (decide (b.1 ≤ c.1)) = true →
      (decide (a.1 ≤ c.1)) = true := by
    intro a b c hab hbc
    simp only [decide_eq_true_eq] at *
    exact le_trans hab hbc
  have htotal : ∀ a b : String × CacheVal,
      ((decide (a.1 ≤ b.1)) || (decide (b.1 ≤ a.1))) = true := by
    intro a b
    simpa using le_total a.1 b.1
  have h := @List.sorted_mergeSort (String × CacheVal)
    (fun a b => decide (a.1 ≤ b.1)) htrans htotal m
  exact h.imp (fun hab => by simpa using hab)

theorem serializeCache_perm (m : List (String × CacheVal)) :
    (serializeCache m).Perm m :=
  List.mergeSort_perm m _

theorem clear_one_lookup_self (env : DiskEnv) (s : ScraperState) (ct : CacheType)
    (k : String) :
    alistLookup ((clear_one env s ct k).diskCaches ct) k = none := by
  rw [clear_one]
  set s1 := lazy_load_disk_cache env s ct with hs1
  by_cases h : (alistLookup (s1.diskCaches ct) k).isSome
  · simp only [check_disk_cache, h, if_true, delete_from_disk_cache]
    simpa using alistLookup_erase (s1.diskCaches ct) k
  · simp only [check_disk_cache, h, if_false]
    exact Option.not_isSome_iff_eq_none.mp h

theorem lazy_load_diskCaches_other (env : DiskEnv) (s : ScraperState)
    (ct t : CacheType) (hne : t ≠ ct) :
    (lazy_load_disk_cache env s ct).diskCaches t = s.diskCaches t := by
  rw [lazy_load_disk_cache]
  by_cases hl : s.diskCachesLoaded ct
  · simp [hl]
  · simp [hl, load_disk_cache, hne]

theorem lazy_load_candidate (env : DiskEnv) (s : ScraperState) (ct : CacheType) :
    (lazy_load_disk_cache env s ct).candidate = s.candidate := by
  rw [lazy_load_disk_cache]
  by_cases hl : s.diskCachesLoaded ct <;> simp [hl, load_disk_cache]

theorem clear_one_diskCaches_other (env : DiskEnv) (s : ScraperState)
    (ct t : CacheType) (k : String) (hne : t ≠ ct) :
    (clear_one env s ct k).diskCaches t = s.diskCaches t := by
  have hch : (check_disk_cache env s ct k).1 = lazy_load_disk_cache env s ct := rfl
  rw [clear_one]
  by_cases h : (check_disk_cache env s ct k).2
  · rw [if_pos h, hch, delete_from_disk_cache]
    simp [hne, lazy_load_diskCaches_other env s ct t hne]
  · rw [if_neg h, hch]
    exact lazy_load_diskCaches_other env s ct t hne

theorem clear_cache_lookup_none (env : DiskEnv) (s : ScraperState)
    (romBase romPlatform : String) (ct : CacheType) :
    alistLookup ((clear_cache env s romBase romPlatform).diskCaches ct) romBase = none := by
  rw [clear_cache]
  cases ct
  case candidates =>
    rw [clear_one_diskCaches_other _ _ _ _ _ (by simp),
        clear_one_diskCaches_other _ _ _ _ _ (by simp),
        clear_one_diskCaches_other _ _ _ _ _ (by simp)]
    exact clear_one_lookup_self _ _ _ _
  case metadata =>
    rw [clear_one_diskCaches_other _ _ _ _ _ (by simp),
        clear_one_diskCaches_other _ _ _ _ _ (by simp)]
    exact clear_one_lookup_self _ _ _ _
  case assets =>
    rw [clear_one_diskCaches_other _ _ _ _ _ (by simp)]
    exact clear_one_lookup_self _ _ _ _
  case internal =>
    exact clear_one_lookup_self _ _ _ _

/-! ## Claim theorems -/

/-- Claim C1: with a metadata scraper configured,
`_scanner_process_ROM_metadata_begin` resolves the metadata action exactly per
the policy/NFO table (title-only gives clean-title-only; NFO-preferred gives
read-NFO iff the NFO exists, else clean-title-only; NFO-then-provider gives
read-NFO iff the NFO exists, else query-provider; provider-only gives
query-provider); with no metadata scraper configured the action is none for
every policy and NFO state. -/
theorem C1_metadata_action_table :
    (∀ nfo, scanner_process_ROM_metadata_begin true .titleOnly nfo
      = ACTION_META_TITLE_ONLY) ∧
    scanner_process_ROM_metadata_begin true .nfoPreferred true = ACTION_META_NFO_FILE ∧
    scanner_process_ROM_metadata_begin true .nfoPreferred false = ACTION_META_TITLE_ONLY ∧
    scanner_process_ROM_metadata_begin true .nfoAndScrape true = ACTION_META_NFO_FILE ∧
    scanner_process_ROM_metadata_begin true .nfoAndScrape false = ACTION_META_SCRAPER ∧
    (∀ nfo, scanner_process_ROM_metadata_begin true .scrapeOnly nfo
      = ACTION_META_SCRAPER) ∧
    (∀ policy nfo, scanner_process_ROM_metadata_begin false policy nfo
      = ACTION_META_NONE) := by
  refine ⟨fun nfo => by cases nfo <;> rfl, rfl, rfl, rfl, rfl,
    fun nfo => by cases nfo <;> rfl,
    fun policy nfo => by cases policy <;> cases nfo <;> rfl⟩

/-- Claim C2: per enabled asset type, `_scanner_process_ROM_assets_begin`
resolves the asset action exactly per the policy/local/support table
(local-only always use-local; local-then-provider: use-local when a local file
exists, query-provider when none exists and the scraper supports the type,
use-local when none exists and the scraper does not; provider-only:
query-provider whenever the scraper supports the type, use-local otherwise,
local file or not); with no asset scraper configured every enabled asset maps
to action none. -/
theorem C2_asset_action_table :
    (∀ l s, asset_action_resolve .localOnly l s = some ACTION_ASSET_LOCAL_ASSET) ∧
    (∀ s, asset_action_resolve .localAndScrape true s = some ACTION_ASSET_LOCAL_ASSET) ∧
    asset_action_resolve .localAndScrape false true = some ACTION_ASSET_SCRAPER ∧
    asset_action_resolve .localAndScrape false false = some ACTION_ASSET_LOCAL_ASSET ∧
    asset_action_resolve .scrapeOnly true false = some ACTION_ASSET_LOCAL_ASSET ∧
    asset_action_resolve .scrapeOnly false false = some ACTION_ASSET_LOCAL_ASSET ∧
    (∀ l, asset_action_resolve .scrapeOnly l true = some ACTION_ASSET_SCRAPER) ∧
    (∀ policy enabledAssets, scanner_process_ROM_assets_begin true policy enabledAssets
      = enabledAssets.map (fun a => (a.id, asset_action_resolve policy a.localFound a.supports))) ∧
    (∀ policy enabledAssets, scanner_process_ROM_assets_begin false policy enabledAssets
      = enabledAssets.map (fun a => (a.id, some ACTION_ASSET_NONE))) := by
  refine ⟨fun l s => by cases l <;> cases s <;> rfl,
    fun s => by cases s <;> rfl, rfl, rfl, rfl, rfl,
    fun l => by cases l <;> rfl,
    fun policy enabledAssets => rfl,
    fun policy enabledAssets => rfl⟩

/-- Claim C3: `set_candidate` persists the candidate into the candidates disk
cache exactly when it is not null: a `None` candidate only becomes the
in-memory active candidate and the whole state is otherwise untouched, while
any non-null candidate — the empty dictionary produced by an empty search
included — is stored under the ROM key with the candidates cache marked
dirty. -/
theorem C3_set_candidate_cache_policy :
    ∀ (env : DiskEnv) (s : ScraperState) (k p : String) (c : Candidate),
      set_candidate env s k p none
        = { s with cacheKey := k, platform := p, candidate := none } ∧
      (set_candidate env s k p none).diskCaches = s.diskCaches ∧
      (set_candidate env s k p none).diskCachesDirty = s.diskCachesDirty ∧
      alistLookup ((set_candidate env s k p (some c)).diskCaches .candidates) k = some c ∧
      (set_candidate env s k p (some c)).diskCachesDirty .candidates = true ∧
      (set_candidate env s k p (some c)).candidate = some c ∧
      alistLookup ((set_candidate env s k p (some [])).diskCaches .candidates) k = some [] := by
  intro env s k p c
  refine ⟨rfl, rfl, rfl, ?_, by simp [set_candidate, update_disk_cache],
    by simp [set_candidate, update_disk_cache, lazy_load_candidate], ?_⟩
  · simpa [set_candidate, update_disk_cache] using
      alistLookup_insert ((lazy_load_disk_cache env
        { s with cacheKey := k, platform := p, candidate := some c }
        .candidates).diskCaches .candidates) k c
  · simpa [set_candidate, update_disk_cache] using
      alistLookup_insert ((lazy_load_disk_cache env
        { s with cacheKey := k, platform := p, candidate := some [] }
        .candidates).diskCaches .candidates) k []

/-- Claim C7 (counterexample): with a null active candidate (a prior search
error) the metadata execution phase only cleans the ROM title; contrary to the
claim, it does not trigger the NFO-sidecar write-back in the null case. -/
theorem C7_counterexample :
    scanner_scrap_ROM_metadata none true [] = [.setNameCleanedFilename] ∧
    MetaEvent.updateNFO ∉ scanner_scrap_ROM_metadata none true [] := by
  exact ⟨rfl, by decide⟩

/-- Claim C7 (amended): when the metadata action is query-provider, a null
active candidate makes the execution phase set the ROM title from the cleaned
filename and nothing else, whereas an empty active candidate makes it set the
title from the cleaned filename and additionally trigger the NFO-sidecar
write-back; the write-back is triggered only in the empty case. -/
theorem C7_query_provider_fallback :
    ∀ (fetchOk : Bool) (gameData : CacheVal),
      scanner_scrap_ROM_metadata none fetchOk gameData = [.setNameCleanedFilename] ∧
      scanner_scrap_ROM_metadata (some []) fetchOk gameData
        = [.setNameCleanedFilename, .updateNFO] := by
  intro fetchOk gameData
  exact ⟨rfl, by simp [scanner_scrap_ROM_metadata]⟩

/-- Claim C8: with `overwrite_existing` false, an enabled asset the ROM
already carries is skipped entirely whatever its computed action: no ROM
mutation and no scraping call happens for it; moreover the asset loop treats
each enabled asset exactly through this per-asset body. -/
theorem C8_no_overwrite_skips_existing_asset :
    (∀ (id action : Nat) (localPath : String) (scrapeResult : Option String),
      process_ROM_asset_one false ⟨id, action, true, localPath, scrapeResult⟩
        = (.skip, false)) ∧
    (∀ (overwriteExisting : Bool) (enabledAssets : List AssetCtx),
      scanner_process_ROM_assets overwriteExisting enabledAssets
        = enabledAssets.map (fun a => (a.id, process_ROM_asset_one overwriteExisting a))) := by
  constructor
  · intro id action localPath scrapeResult
    by_cases h : action = ACTION_ASSET_NONE <;>
      simp [process_ROM_asset_one, h]
  · intro overwriteExisting enabledAssets
    rw [scanner_process_ROM_assets]
    by_cases h : enabledAssets.all (fun a => a.action = ACTION_ASSET_NONE)
    · rw [if_pos h]
      refine List.map_congr_left (fun a ha => ?_)
      have ha' : a.action = ACTION_ASSET_NONE := by
        have := List.all_eq_true.mp h a ha
        simpa using this
      simp [process_ROM_asset_one, ha']
    · rw [if_neg h]

/-- Claim C9 (counterexample): with a 1000 ms configured interval and 900 ms
elapsed since the previous call, `_wait_for_API_request` sleeps the full
1000 ms, not the 100 ms that would be just long enough to restore the minimum
spacing. -/
theorem C9_counterexample :
    wait_for_API_request 1000 900 = 1000 ∧
    claimed_throttle_sleep 1000 900 = 100 ∧
    wait_for_API_request 1000 900 ≠ claimed_throttle_sleep 1000 900 := by
  refine ⟨?_, ?_, ?_⟩ <;> norm_num [wait_for_API_request, claimed_throttle_sleep]

/-- Claim C9 (amended): with a nonzero configured minimum interval,
`_wait_for_API_request` sleeps the full configured interval whenever less than
that interval has elapsed since the timestamp of the previous call — which
keeps consecutive calls spaced at least the interval apart, possibly
overshooting — and does not sleep when at least the interval has already
elapsed. -/
theorem C9_throttle_spacing (waitTimeInMs : Nat) (elapsedMs : ℚ)
    (hw : 0 < waitTimeInMs) (he : 0 ≤ elapsedMs) :
    (elapsedMs < (waitTimeInMs : ℚ) →
      wait_for_API_request waitTimeInMs elapsedMs = (waitTimeInMs : ℚ)) ∧
    ((waitTimeInMs : ℚ) ≤ elapsedMs →
      wait_for_API_request waitTimeInMs elapsedMs = 0) ∧
    (waitTimeInMs : ℚ) ≤ elapsedMs + wait_for_API_request waitTimeInMs elapsedMs := by
  have hw' : waitTimeInMs ≠ 0 := Nat.pos_iff_ne_zero.mp hw
  refine ⟨fun h => by simp [wait_for_API_request, hw', h], fun h => ?_, ?_⟩
  · have h' : ¬ elapsedMs < (waitTimeInMs : ℚ) := not_lt.mpr h
    simp [wait_for_API_request, hw', h']
  · by_cases h : elapsedMs < (waitTimeInMs : ℚ)
    · simp only [wait_for_API_request, hw', if_false, h, if_true]
      linarith
    · simp only [wait_for_API_request, hw', if_false, h]
      simpa using not_lt.mp h

/-- Witness for C9_throttle_spacing: at a 1000 ms interval with 900 ms
elapsed, the throttle sleeps 1000 ms and the resulting spacing reaches the
minimum interval. -/
theorem C9_throttle_spacing_witness :
    wait_for_API_request 1000 900 = 1000 ∧
    (1000 : ℚ) ≤ 900 + wait_for_API_request 1000 900 := by
  have h := C9_throttle_spacing 1000 900 (by norm_num) (by norm_num)
  exact ⟨h.1 (by norm_num), h.2.2⟩

/-- Claim C4: each `_handle_error` call increments the error counter by one;
the disabled flag becomes true exactly when the counter exceeds
`EXCEPTION_COUNTER_THRESHOLD` (5), i.e. after exactly 6 recorded errors on a
fresh instance; on disabling the status message is overwritten with the
disabled notice; the flag is never reset by `_handle_error`; and all
operations of a disabled instance return null without invoking the underlying
transport. -/
theorem C4_error_circuit_breaker :
    (∀ (s : ScraperState) (statusDic : StatusDic) (userMsg : String),
      (handle_error s statusDic userMsg).1.exceptionCounter = s.exceptionCounter + 1) ∧
    (∀ (s : ScraperState) (statusDic : StatusDic) (userMsg : String),
      (handle_error s statusDic userMsg).1.scraperDisabled
        = (s.scraperDisabled
           || decide (s.exceptionCounter + 1 > EXCEPTION_COUNTER_THRESHOLD))) ∧
    (∀ (s : ScraperState) (statusDic : StatusDic) (userMsg : String),
      s.exceptionCounter + 1 > EXCEPTION_COUNTER_THRESHOLD →
      (handle_error s statusDic userMsg).2.msg
        = "Maximum number of errors exceeded. Disabling scraper.") ∧
    (∀ (s : ScraperState) (statusDic : StatusDic) (userMsg : String),
      s.exceptionCounter + 1 ≤ EXCEPTION_COUNTER_THRESHOLD →
      (handle_error s statusDic userMsg).2.msg = userMsg) ∧
    (∀ (s : ScraperState) (statusDic : StatusDic) (userMsg : String),
      s.scraperDisabled = true →
      (handle_error s statusDic userMsg).1.scraperDisabled = true) ∧
    (∀ (statusDic : StatusDic) (userMsg : String),
      (handle_error_n 5 (initScraper, statusDic) userMsg).1.scraperDisabled = false ∧
      (handle_error_n 5 (initScraper, statusDic) userMsg).1.exceptionCounter = 5) ∧
    (∀ (statusDic : StatusDic) (userMsg : String),
      (handle_error_n 6 (initScraper, statusDic) userMsg).1.scraperDisabled = true ∧
      (handle_error_n 6 (initScraper, statusDic) userMsg).1.exceptionCounter = 6) ∧
    (∀ (s : ScraperState) (transportResult : Option (List Candidate)),
      s.scraperDisabled = true →
      scraper_operation s transportResult = (none, false)) := by
  refine ⟨?_, ?_, ?_, ?_, ?_, ?_, ?_, ?_⟩
  · intro s statusDic userMsg
    rw [handle_error]
    split <;> rfl
  · intro s statusDic userMsg
    rw [handle_error]
    split
    · rename_i h
      simp only []
      have h' : s.exceptionCounter + 1 > EXCEPTION_COUNTER_THRESHOLD := h
      simp [h']
    · rename_i h
      have h' : ¬ s.exceptionCounter + 1 > EXCEPTION_COUNTER_THRESHOLD := h
      simp [h']
  · intro s statusDic userMsg h
    rw [handle_error, if_pos h]
  · intro s statusDic userMsg h
    rw [handle_error, if_neg (by exact not_lt.mpr h)]
  · intro s statusDic userMsg h
    rw [handle_error]
    split
    · rfl
    · exact h
  · intro statusDic userMsg
    exact ⟨rfl, rfl⟩
  · intro statusDic userMsg
    exact ⟨rfl, rfl⟩
  · intro s transportResult h
    simp [scraper_operation, h]

/-- Witness for C4_error_circuit_breaker: a sixth error on an instance with
five recorded errors overwrites the message with the disabled notice, a fifth
error keeps the caller message, a disabled flag survives further errors, and a
disabled instance answers null without touching the transport. -/
theorem C4_error_circuit_breaker_witness :
    (handle_error { initScraper with exceptionCounter := 5 } ⟨true, "", 0⟩
      "Network error").2.msg
      = "Maximum number of errors exceeded. Disabling scraper." ∧
    (handle_error { initScraper with exceptionCounter := 4 } ⟨true, "", 0⟩
      "Network error").2.msg = "Network error" ∧
    (handle_error { initScraper with scraperDisabled := true } ⟨true, "", 0⟩
      "Network error").1.scraperDisabled = true ∧
    scraper_operation { initScraper with scraperDisabled := true }
      (some [[("id", "1")]]) = (none, false) := by
  refine ⟨C4_error_circuit_breaker.2.2.1 _ _ _ (by decide),
    C4_error_circuit_breaker.2.2.2.1 _ _ _ (by decide),
    C4_error_circuit_breaker.2.2.2.2.1 _ _ _ rfl,
    C4_error_circuit_breaker.2.2.2.2.2.2.2 _ _ rfl⟩

/-- Claim C5: during candidate resolution the candidates cache is consulted
first: on a hit (a cached empty marker included) the cached value becomes the
active candidate and `get_candidates` is never invoked; on a miss every cache
kind is purged for the key before `get_candidates` runs, a null search result
becomes the active candidate without being cached, and an empty search result
becomes the active empty marker and is cached. -/
theorem C5_candidate_cache_first :
    ∀ (env : DiskEnv) (mode : SelectionMode) (userChoice : Int)
      (searchResult : Option (List Candidate)) (s : ScraperState)
      (romBase romPlatform : String),
      ((check_candidates_cache env s romBase romPlatform).2 = true →
        scanner_get_candidate env mode userChoice searchResult s romBase romPlatform
          = (set_candidate_from_cache
              (check_candidates_cache env s romBase romPlatform).1 romBase romPlatform,
             false) ∧
        (scanner_get_candidate env mode userChoice searchResult s romBase romPlatform).1.candidate
          = retrieve_from_disk_cache
              (check_candidates_cache env s romBase romPlatform).1 .candidates romBase ∧
        (retrieve_from_disk_cache
          (check_candidates_cache env s romBase romPlatform).1 .candidates romBase).isSome
          = true) ∧
      ((check_candidates_cache env s romBase romPlatform).2 = false →
        (scanner_get_candidate env mode userChoice searchResult s romBase romPlatform).2 = true ∧
        (∀ ct, alistLookup
          ((clear_cache env (check_candidates_cache env s romBase romPlatform).1
            romBase romPlatform).diskCaches ct) romBase = none) ∧
        (searchResult = none →
          (scanner_get_candidate env mode userChoice searchResult s romBase romPlatform).1.candidate
            = none ∧
          alistLookup
            ((scanner_get_candidate env mode userChoice searchResult s romBase
              romPlatform).1.diskCaches .candidates) romBase = none) ∧
        (searchResult = some [] →
          (scanner_get_candidate env mode userChoice searchResult s romBase romPlatform).1.candidate
            = some [] ∧
          alistLookup
            ((scanner_get_candidate env mode userChoice searchResult s romBase
              romPlatform).1.diskCaches .candidates) romBase = some [])) := by
  intro env mode userChoice searchResult s romBase romPlatform
  constructor
  · intro h
    have hgc : scanner_get_candidate env mode userChoice searchResult s romBase romPlatform
        = (set_candidate_from_cache
            (check_candidates_cache env s romBase romPlatform).1 romBase romPlatform, false) := by
      simp only [scanner_get_candidate]
      rw [if_pos h]
    refine ⟨hgc, ?_, h⟩
    rw [hgc]
    rfl
  · intro h
    have h' : ¬ ((check_candidates_cache env s romBase romPlatform).2 = true) := by
      simp [h]
    refine ⟨?_, fun ct => clear_cache_lookup_none env _ romBase romPlatform ct, ?_, ?_⟩
    · simp only [scanner_get_candidate]
      rw [if_neg h']
      cases searchResult with
      | none => rfl
      | some l => cases l with
        | nil => rfl
        | cons c cs => rfl
    · intro he
      subst he
      constructor
      · simp only [scanner_get_candidate]
        rw [if_neg h']
        rfl
      · simp only [scanner_get_candidate]
        rw [if_neg h']
        exact clear_cache_lookup_none env _ romBase romPlatform .candidates
    · intro he
      subst he
      constructor
      · simp only [scanner_get_candidate]
        rw [if_neg h']
        simp [set_candidate, update_disk_cache, lazy_load_candidate]
      · simp only [scanner_get_candidate]
        rw [if_neg h']
        simpa [set_candidate, update_disk_cache] using
          alistLookup_insert _ romBase []

/-- Disk environment with a cached candidate for the ROM `Sonic`: used to
exercise the cache-hit branch of candidate resolution. -/
def envHitC5 : DiskEnv :=
  ⟨fun ct => if ct = .candidates then some [("Sonic", [("id", "42")])] else none⟩

/-- Disk environment with no cache files: used to exercise the cache-miss
branch of candidate resolution. -/
def envMissC5 : DiskEnv := ⟨fun _ => none⟩

/-- Witness for C5_candidate_cache_first: with `Sonic` in the candidates
cache the search is skipped and the cached value installed; with empty disk
caches the search runs. -/
theorem C5_candidate_cache_first_witness :
    scanner_get_candidate envHitC5 .automatic 0 (some [[("id", "7")]]) initScraper
      "Sonic" "snes"
      = (set_candidate_from_cache
          (check_candidates_cache envHitC5 initScraper "Sonic" "snes").1 "Sonic" "snes",
         false) ∧
    (scanner_get_candidate envMissC5 .automatic 0 none initScraper "Sonic" "snes").2
      = true := by
  constructor
  · exact ((C5_candidate_cache_first envHitC5 .automatic 0 (some [[("id", "7")]])
      initScraper "Sonic" "snes").1 (by decide)).1
  · exact ((C5_candidate_cache_first envMissC5 .automatic 0 none
      initScraper "Sonic" "snes").2 (by decide)).1

/-- Scraper state of a scraper without disk cache support whose candidates
cache is nevertheless loaded, non-empty and dirty (as the AEL Offline scraper
ends up after `set_candidate` during a scan). -/
def offlineFlushState : ScraperState :=
  { initScraper with
    diskCaches := fun ct => if ct = .candidates then [("Sonic", [("id", "42")])] else []
    diskCachesLoaded := fun _ => true
    diskCachesDirty := fun _ => true }

/-- Claim C6 (counterexample): for a scraper without disk cache support,
`flush_disk_cache` writes nothing even for a kind that is loaded, non-empty
and dirty — the claimed equivalence fails for such scrapers. -/
theorem C6_counterexample :
    (flush_disk_cache false offlineFlushState "AEL_Offline").2 = [] ∧
    offlineFlushState.diskCachesLoaded .candidates = true ∧
    offlineFlushState.diskCaches .candidates ≠ [] ∧
    offlineFlushState.diskCachesDirty .candidates = true := by
  exact ⟨rfl, rfl, by decide, rfl⟩

/-- Claim C6 (amended): for a scraper that supports the disk cache,
`flush_disk_cache` writes the file of a cache kind exactly when that kind is
loaded, non-empty and dirty; every written file carries the
`<scraper>__<platform>__<kind>.json` name and the serialisation of its map
with keys in sorted order; writing clears the dirty flag, so an immediate
second flush writes nothing; a scraper without disk cache support never
writes. -/
theorem C6_flush_iff_loaded_nonempty_dirty :
    ∀ (s : ScraperState) (scraperFilename : String),
      (∀ ct, (flush_write s scraperFilename ct).isSome
        = (s.diskCachesLoaded ct && !(s.diskCaches ct).isEmpty
           && s.diskCachesDirty ct)) ∧
      (∀ ct, s.diskCachesLoaded ct = true → s.diskCaches ct ≠ [] →
        s.diskCachesDirty ct = true →
        flush_write s scraperFilename ct
          = some (scraper_file_name scraperFilename s.platform ct,
                  serializeCache (s.diskCaches ct))) ∧
      (flush_disk_cache true s scraperFilename).2
        = CACHE_LIST.filterMap (flush_write s scraperFilename) ∧
      (∀ ct, List.Sorted (fun a b : String × CacheVal => a.1 ≤ b.1)
        (serializeCache (s.diskCaches ct)) ∧
        (serializeCache (s.diskCaches ct)).Perm (s.diskCaches ct)) ∧
      (flush_disk_cache true
        (flush_disk_cache true s scraperFilename).1 scraperFilename).2 = [] ∧
      flush_disk_cache false s scraperFilename = (s, []) := by
  intro s scraperFilename
  refine ⟨?_, ?_, rfl, fun ct => ⟨serializeCache_sorted _, serializeCache_perm _⟩, ?_, rfl⟩
  · intro ct
    rw [flush_write]
    by_cases h1 : s.diskCachesLoaded ct
    · by_cases h2 : s.diskCaches ct = []
      · simp [h1, h2]
      · by_cases h3 : s.diskCachesDirty ct
        · simp [h1, h2, h3, List.isEmpty_iff]
        · simp [h1, h2, h3, List.isEmpty_iff]
    · simp [h1]
  · intro ct h1 h2 h3
    rw [flush_write]
    simp [h1, h2, h3]
  · have hr : (flush_disk_cache true
        (flush_disk_cache true s scraperFilename).1 scraperFilename).2
        = CACHE_LIST.filterMap
            (flush_write (flush_disk_cache true s scraperFilename).1 scraperFilename) := rfl
    rw [hr]
    refine List.filterMap_eq_nil_iff.mpr (fun ct _ => ?_)
    have hL : (flush_disk_cache true s scraperFilename).1.diskCachesLoaded
        = s.diskCachesLoaded := rfl
    have hC : (flush_disk_cache true s scraperFilename).1.diskCaches = s.diskCaches := rfl
    have hD : (flush_disk_cache true s scraperFilename).1.diskCachesDirty ct
        = if (flush_write s scraperFilename ct).isSome = true then false
          else s.diskCachesDirty ct := rfl
    rw [flush_write, hL, hC, hD]
    by_cases h1 : s.diskCachesLoaded ct
    · by_cases h2 : s.diskCaches ct = []
      · simp [h1, h2]
      · by_cases h3 : s.diskCachesDirty ct
        · have hw : (flush_write s scraperFilename ct).isSome = true := by
            simp [flush_write, h1, h2, h3]
          simp [h1, h2, hw]
        · have hw : (flush_write s scraperFilename ct).isSome = false := by
            simp [flush_write, h1, h2, h3]
          simp [h1, h2, h3, hw]
    · simp [h1]

/-- Scraper state with a loaded, non-empty, dirty metadata cache, used to
exercise the write path of `flush_disk_cache`. -/
def flushStateC6 : ScraperState :=
  { initScraper with
    diskCaches := fun ct => if ct = .metadata then [("Sonic", [("title", "Sonic")])] else []
    diskCachesLoaded := fun ct => if ct = .metadata then true else false
    diskCachesDirty := fun ct => if ct = .metadata then true else false
    platform := "snes" }

/-- Witness for C6_flush_iff_loaded_nonempty_dirty: the loaded non-empty
dirty metadata cache of a concrete state is written under its composed file
name with sorted content, and a second flush writes nothing. -/
theorem C6_flush_iff_loaded_nonempty_dirty_witness :
    flush_write flushStateC6 "TGDB" .metadata
      = some (scraper_file_name "TGDB" flushStateC6.platform .metadata,
              serializeCache (flushStateC6.diskCaches .metadata)) ∧
    (flush_disk_cache true (flush_disk_cache true flushStateC6 "TGDB").1 "TGDB").2
      = [] := by
  have h := C6_flush_iff_loaded_nonempty_dirty flushStateC6 "TGDB"
  exact ⟨h.2.1 .metadata rfl (by decide) rfl, h.2.2.2.2.1⟩

/-- Claim C10: `FilterROM.ROM_is_filtered` returns false for every basename
and platform when the `scan_ignore_bios` setting is off; when it is on, a ROM
is filtered exactly when it is in one of the MAME BIOS/Devices/Mechanical sets
on the MAME platform, or contains the `[BIOS]` substring on any other
platform. -/
theorem C10_rom_filter :
    ∀ (romPlatform mameLong : String) (bios devices mechanical : List String)
      (basename : String),
      FilterROM.ROM_is_filtered
        ⟨false, romPlatform, mameLong, bios, devices, mechanical⟩ basename = false ∧
      (FilterROM.ROM_is_filtered
        ⟨true, romPlatform, mameLong, bios, devices, mechanical⟩ basename = true ↔
        ((romPlatform = mameLong ∧
          (basename ∈ bios ∨ basename ∈ devices ∨ basename ∈ mechanical)) ∨
         (romPlatform ≠ mameLong ∧ "[BIOS]".toList <:+: basename.toList))) := by
  intro romPlatform mameLong bios devices mechanical basename
  refine ⟨rfl, ?_⟩
  by_cases hp : romPlatform = mameLong
  · by_cases h1 : basename ∈ bios
    · simp [FilterROM.ROM_is_filtered, hp, h1]
    · by_cases h2 : basename ∈ devices
      · simp [FilterROM.ROM_is_filtered, hp, h1, h2]
      · by_cases h3 : basename ∈ mechanical
        · simp [FilterROM.ROM_is_filtered, hp, h1, h2, h3]
        · simp [FilterROM.ROM_is_filtered, hp, h1, h2, h3]
  · by_cases hb : "[BIOS]".toList <:+: basename.toList
    · simp [FilterROM.ROM_is_filtered, hp, hb]
    · simp [FilterROM.ROM_is_filtered, hp, hb]

end AKL
